import Mathlib

/-!
Shallow embedding of the CrowdCounter detection core
(src/backend/detector/counter.py, camera.py, engine.py, manager.py and
src/backend/api/ws.py), with the settings surface of
src/backend/db/models.py.  Stateful Python objects become Lean structures
with explicit state passing; external effects (camera reads, socket sends,
model inference) are supplied by explicit environment values; Python
exceptions become `Except` results or explicit raised-flags; Python floats
are modelled as exact rationals.
-/

namespace CrowdCounter

/-- Raw video frames are opaque to the core; only identity matters. -/
abbrev Frame := Nat

/-! ### PeopleCounter — src/backend/detector/counter.py -/

/-- Python built-in `round` on a rational: round to the nearest integer,
ties to the even integer (CPython banker's rounding, used by
`PeopleCounter.smoothed_count`). -/
def pyRound (q : ℚ) : ℤ :=
  if q - ⌊q⌋ < 1/2 then ⌊q⌋
  else if 1/2 < q - ⌊q⌋ then ⌊q⌋ + 1
  else if ⌊q⌋ % 2 = 0 then ⌊q⌋ else ⌊q⌋ + 1

/-- State of `PeopleCounter.__init__`: `smoothedVal` models the field
`_smoothed_count : Optional[float]`, `rawCount` models `_raw_count`. -/
structure PeopleCounter where
  room_id : String
  alpha : ℚ
  smoothedVal : Option ℚ
  rawCount : ℤ
deriving Repr, DecidableEq

/-- Constructor default state (`alpha` defaults to 0.3 at call sites). -/
def PeopleCounter.init (room_id : String) (alpha : ℚ) : PeopleCounter :=
  { room_id := room_id, alpha := alpha, smoothedVal := none, rawCount := 0 }

/-- Property `smoothed_count`: 0 when unset, otherwise `round` of the
internal float. -/
def PeopleCounter.smoothed_count (c : PeopleCounter) : ℤ :=
  match c.smoothedVal with
  | none => 0
  | some q => pyRound q

/-- Method `update`: stores the raw count, initializes the smoothed value
to the raw count on the first call, otherwise applies the EMA recurrence
`alpha * raw + (1 - alpha) * previous`; returns the rounded smoothed
count. -/
def PeopleCounter.update (c : PeopleCounter) (raw_count : ℤ) : PeopleCounter × ℤ :=
  let c1 := { c with rawCount := raw_count }
  let c2 :=
    match c1.smoothedVal with
    | none => { c1 with smoothedVal := some (raw_count : ℚ) }
    | some prev =>
        { c1 with smoothedVal := some (c1.alpha * raw_count + (1 - c1.alpha) * prev) }
  (c2, c2.smoothed_count)

/-- Method `set_alpha`: clamps the input into [0, 1] before storing. -/
def PeopleCounter.set_alpha (c : PeopleCounter) (a : ℚ) : PeopleCounter :=
  { c with alpha := max 0 (min 1 a) }

/-- Method `reset`: clears the smoothed value back to unset and the raw
count to zero. -/
def PeopleCounter.reset (c : PeopleCounter) : PeopleCounter :=
  { c with smoothedVal := none, rawCount := 0 }

/-! ### CameraCapture — src/backend/detector/camera.py -/

/-- Observable side effects of a `grab_frame` call: the `cv2` read, the
2-second backoff sleep, and an automatic `connect()` attempt. -/
inductive CamEvent where
  | ioRead
  | sleepBackoff
  | connectCall
deriving Repr, DecidableEq

/-- Environment outcome of one `cv2.VideoCapture(source)` construction:
either the constructor raises, or it yields a handle whose `isOpened()`
answers `ok`. -/
inductive ConnectEnv where
  | raises
  | opens (ok : Bool)
deriving Repr, DecidableEq

/-- State of `CameraCapture.__init__`: `cap` models `_cap` (presence of a
`cv2.VideoCapture` handle), `connected` models `_connected`, `lastFrame`
models `_last_frame`, `reconnectAttempts` models `_reconnect_attempts`,
and `maxReconnectAttempts` models `_max_reconnect_attempts` (5). -/
structure CameraCapture where
  source : String
  room_id : String
  cap : Option Unit
  connected : Bool
  lastFrame : Option Frame
  reconnectAttempts : ℕ
  maxReconnectAttempts : ℕ
deriving Repr, DecidableEq

/-- Constructor state of `CameraCapture`. -/
def CameraCapture.init (source room_id : String) : CameraCapture :=
  { source := source, room_id := room_id, cap := none, connected := false,
    lastFrame := none, reconnectAttempts := 0, maxReconnectAttempts := 5 }

/-- Method `connect`: assigns a fresh capture handle; on `isOpened()`
success sets `_connected = True` and resets `_reconnect_attempts` to 0 and
returns `True`; on open failure returns `False` leaving the flags
untouched; an exception is caught and reported as `False` with `_cap`
unchanged. -/
def CameraCapture.connect (s : CameraCapture) (env : ConnectEnv) :
    CameraCapture × Bool :=
  match env with
  | .raises => (s, false)
  | .opens ok =>
      let s1 := { s with cap := some () }
      if ok then ({ s1 with connected := true, reconnectAttempts := 0 }, true)
      else (s1, false)

/-- Method `_handle_disconnect`: marks disconnected, increments the attempt
counter, and while the counter is still within the maximum sleeps the fixed
backoff and issues exactly one automatic `connect()`. -/
def CameraCapture.handle_disconnect (s : CameraCapture) (cenv : ConnectEnv) :
    CameraCapture × List CamEvent :=
  let s1 := { s with connected := false, reconnectAttempts := s.reconnectAttempts + 1 }
  if s1.reconnectAttempts ≤ s1.maxReconnectAttempts then
    ((CameraCapture.connect s1 cenv).1, [CamEvent.sleepBackoff, CamEvent.connectCall])
  else (s1, [])

/-- Environment for one `grab_frame` call: the outcome of `_cap.read()`
(`none` models `ret == False`) and the connect outcome used by a possible
automatic reconnect. -/
structure GrabEnv where
  readResult : Option Frame
  reconnect : ConnectEnv
deriving Repr, DecidableEq

/-- Method `grab_frame`: returns immediately with `None` when not connected
or without a handle; otherwise performs the read, and on read failure runs
`_handle_disconnect` and returns `_last_frame`; on success caches and
returns the frame.  The event list records the performed I/O. -/
def CameraCapture.grab_frame (s : CameraCapture) (env : GrabEnv) :
    CameraCapture × Option Frame × List CamEvent :=
  if s.connected = false ∨ s.cap = none then (s, none, [])
  else
    match env.readResult with
    | none =>
        let r := CameraCapture.handle_disconnect s env.reconnect
        (r.1, s.lastFrame, CamEvent.ioRead :: r.2)
    | some f => ({ s with lastFrame := some f }, some f, [CamEvent.ioRead])

/-- Method `disconnect`: releases the handle if held and clears the
connected flag. -/
def CameraCapture.disconnect (s : CameraCapture) : CameraCapture :=
  { s with cap := none, connected := false }

/-! ### DetectionEngine — src/backend/detector/engine.py -/

/-- A YOLO result box: `xyxy` corners and a confidence score. -/
structure Box where
  x1 : ℚ
  y1 : ℚ
  x2 : ℚ
  y2 : ℚ
  conf : ℚ
deriving Repr, DecidableEq

/-- One entry of the detection list built by `DetectionEngine.detect`:
`bbox` is the list `[x1, y1, x2, y2]`, `center` the pair `[cx, cy]`. -/
structure Detection where
  bbox : List ℚ
  confidence : ℚ
  center : ℤ × ℤ
deriving Repr, DecidableEq

/-- Python `int()` truncation toward zero on a rational, as used for the
center coordinates `int((x1 + x2) / 2)`. -/
def pyInt (q : ℚ) : ℤ :=
  if q < 0 then -⌊-q⌋ else ⌊q⌋

/-- Module constant `HEAD_DETECTION_MODELS`. -/
def HEAD_DETECTION_MODELS : List String :=
  ["yolov8-head-medium.pt", "yolov8-head-nano.pt", "yolov8-crowdhuman.pt",
   "models/yolov8-head-medium.pt", "models/yolov8-head-nano.pt",
   "models/yolov8-crowdhuman.pt"]

/-- Module constant `P2PNET_MODELS`. -/
def P2PNET_MODELS : List String :=
  ["p2pnet.pth", "models/p2pnet.pth"]

/-- Python `name in path` substring containment on strings. -/
def strContains (hay needle : String) : Bool :=
  decide (needle.data <:+: hay.data)

/-- The annotated frame is the copied input frame together with the list of
circle centers drawn on it. -/
abbrev AnnotatedFrame := Frame × List (ℤ × ℤ)

/-- State of `DetectionEngine.__init__`: `loaded`, the rolling
`_inference_times` window capped at `_max_times = 100`, and the cached
`_is_p2pnet` flag.  The wrapped model object itself is external; `loaded`
tracks whether one is held. -/
structure DetectionEngine where
  model_path : String
  device : String
  loaded : Bool
  inferenceTimes : List ℚ
  maxTimes : ℕ
  isP2pnet : Bool
deriving Repr, DecidableEq

/-- Constructor state of `DetectionEngine`. -/
def DetectionEngine.init (model_path device : String) : DetectionEngine :=
  { model_path := model_path, device := device, loaded := false,
    inferenceTimes := [], maxTimes := 100, isP2pnet := false }

/-- Method `_is_head_model`: substring test against `HEAD_DETECTION_MODELS`. -/
def DetectionEngine.is_head_model (e : DetectionEngine) : Bool :=
  HEAD_DETECTION_MODELS.any (fun name => strContains e.model_path name)

/-- Method `_check_is_p2pnet`: substring test against `P2PNET_MODELS`. -/
def DetectionEngine.check_is_p2pnet (e : DetectionEngine) : Bool :=
  P2PNET_MODELS.any (fun name => strContains e.model_path name)

/-- Method `reload_model`: swaps the model path, recomputes the P2PNet
flag, marks loaded, and clears the inference-time window. -/
def DetectionEngine.reload_model (e : DetectionEngine) (mp : String) : DetectionEngine :=
  let e1 := { e with model_path := mp }
  { e1 with isP2pnet := e1.check_is_p2pnet, loaded := true, inferenceTimes := [] }

/-- Method `load_model`: computes the P2PNet flag and marks loaded. -/
def DetectionEngine.load_model (e : DetectionEngine) : DetectionEngine :=
  let e1 := { e with isP2pnet := e.check_is_p2pnet }
  { e1 with loaded := true }

/-- Environment of one `detect` call: the boxes the YOLO backend returns,
the measured inference time, and — when the P2PNet backend is active — its
delegate result and its inference-time list. -/
structure DetectEnv where
  yoloBoxes : List Box
  inferenceMs : ℚ
  p2pCount : ℕ
  p2pAnnotated : AnnotatedFrame
  p2pDetections : List Detection
  p2pTimes : List ℚ
deriving Repr, DecidableEq

/-- Detection entry built from one YOLO box inside the loop of `detect`. -/
def boxToDetection (b : Box) : Detection :=
  { bbox := [b.x1, b.y1, b.x2, b.y2],
    confidence := b.conf,
    center := (pyInt ((b.x1 + b.x2) / 2), pyInt ((b.y1 + b.y2) / 2)) }

/-- Method `detect`: raises `RuntimeError` when no model is loaded;
delegates to the P2PNet backend when `_is_p2pnet`; otherwise runs the YOLO
path: records the inference time into the capped window, takes the box
list, sets `count = len(result.boxes)`, draws a circle per box on a copy of
the frame and builds the detection dict list. -/
def DetectionEngine.detect (e : DetectionEngine) (frame : Frame)
    (confidence : ℚ) (imgsz : ℤ) (env : DetectEnv) :
    Except String (DetectionEngine × ℕ × AnnotatedFrame × List Detection) :=
  let _ := confidence
  let _ := imgsz
  if e.loaded = false then Except.error "Model not loaded"
  else if e.isP2pnet then
    let e1 :=
      if env.p2pTimes ≠ [] then { e with inferenceTimes := env.p2pTimes } else e
    Except.ok (e1, env.p2pCount, env.p2pAnnotated, env.p2pDetections)
  else
    let times1 := e.inferenceTimes ++ [env.inferenceMs]
    let times2 := if e.maxTimes < times1.length then times1.drop 1 else times1
    let e1 := { e with inferenceTimes := times2 }
    let detections := env.yoloBoxes.map boxToDetection
    let annotated : AnnotatedFrame := (frame, detections.map (fun d => d.center))
    Except.ok (e1, env.yoloBoxes.length, annotated, detections)

/-! ### RoomProcessor — src/backend/detector/manager.py -/

/-- Arguments of one completed `on_count_update` callback invocation. -/
structure CallbackCall where
  room_id : String
  count : ℤ
  raw_count : ℤ
  occupancy : ℚ
  frame_base64 : ℕ
deriving Repr, DecidableEq

/-- State of `RoomProcessor.__init__`: owns its camera and counter;
`running` models `_running`, `lastFrameB64` the encoded `_last_frame`, and
`lastDetections` the `_last_detections` raw count.  The shared detection
engine lives in the manager. -/
structure RoomProcessor where
  room_id : String
  capacity : ℤ
  camera : CameraCapture
  counter : PeopleCounter
  running : Bool
  lastFrameB64 : Option ℕ
  lastDetections : ℤ
deriving Repr, DecidableEq

/-- Constructor state of `RoomProcessor` (counter alpha defaults to 0.3). -/
def RoomProcessor.init (room_id camera_url : String) (capacity : ℤ) : RoomProcessor :=
  { room_id := room_id, capacity := capacity,
    camera := CameraCapture.init camera_url room_id,
    counter := PeopleCounter.init room_id (3/10),
    running := false, lastFrameB64 := none, lastDetections := 0 }

deriving instance DecidableEq for Except

/-- Environment of one loop cycle: whether `grab_frame` itself raises or
runs with the given camera environment, the outcome of the detector call
(raw count and annotated frame — the loop discards the detection list),
the outcome of JPEG/base64 encoding, the outcome of the callback, and
whether an external `stop()` request lands before the next loop check. -/
structure CycleEnv where
  grab : Except Unit GrabEnv
  detectRes : Except Unit (ℤ × Frame)
  encodeRes : Except Unit ℕ
  callbackRes : Except Unit Unit
  stopRequested : Bool
deriving Repr, DecidableEq

/-- Record of one executed loop cycle: the completed callback (if any),
whether an exception was caught by the `except` handler, and the seconds
slept at the end of the cycle. -/
structure CycleOut where
  callback : Option CallbackCall
  raised : Bool
  sleptSeconds : ℤ
deriving Repr, DecidableEq

/-- Body of one iteration of `_process_loop` (the `try` block): grab a
frame; when present, detect, update the smoothing counter, compute
occupancy, encode and cache the frame, and invoke the callback.  Because
the Python object is mutated in place, state changes made before a raised
exception persist; the returned flag reports whether the `except` branch
caught an exception. -/
def RoomProcessor.runCycle (p : RoomProcessor) (env : CycleEnv) :
    RoomProcessor × Option CallbackCall × Bool :=
  match env.grab with
  | .error _ => (p, none, true)
  | .ok genv =>
      let g := CameraCapture.grab_frame p.camera genv
      let p1 := { p with camera := g.1 }
      match g.2.1 with
      | none => (p1, none, false)
      | some _frame =>
          match env.detectRes with
          | .error _ => (p1, none, true)
          | .ok d =>
              let raw := d.1
              let u := PeopleCounter.update p1.counter raw
              let p2 := { p1 with counter := u.1 }
              let smoothed := u.2
              let occupancy : ℚ :=
                if 0 < p2.capacity then (smoothed : ℚ) / (p2.capacity : ℚ) * 100 else 0
              match env.encodeRes with
              | .error _ => (p2, none, true)
              | .ok enc =>
                  let p3 := { p2 with lastFrameB64 := some enc, lastDetections := raw }
                  match env.callbackRes with
                  | .error _ => (p3, none, true)
                  | .ok _ =>
                      (p3, some { room_id := p3.room_id, count := smoothed,
                                  raw_count := raw, occupancy := occupancy,
                                  frame_base64 := enc }, false)

/-- Loop `while self._running`: each pass runs the guarded cycle body, the
`except` handler swallows any exception, and the cycle always ends with
`await asyncio.sleep(interval)`; a concurrent `stop()` request takes
effect at the next `while` check.  The environment list supplies the
outcomes of successive cycles. -/
def RoomProcessor.process_loop (p : RoomProcessor) (interval : ℤ)
    (envs : List CycleEnv) : RoomProcessor × List CycleOut :=
  match envs with
  | [] => (p, [])
  | e :: es =>
      if p.running then
        let r := RoomProcessor.runCycle p e
        let out : CycleOut :=
          { callback := r.2.1, raised := r.2.2, sleptSeconds := interval }
        let p1 := if e.stopRequested then { r.1 with running := false } else r.1
        let rest := RoomProcessor.process_loop p1 interval es
        (rest.1, out :: rest.2)
      else (p, [])

/-- Method `start`: returns unchanged when already running; sets the
counter alpha, attempts `camera.connect()`, and only on success flips
`_running` and launches the loop task. -/
def RoomProcessor.start (p : RoomProcessor) (confidence : ℚ) (imgsz : ℤ)
    (alpha : ℚ) (cenv : ConnectEnv) : RoomProcessor :=
  let _ := confidence
  let _ := imgsz
  if p.running then p
  else
    let p1 := { p with counter := PeopleCounter.set_alpha p.counter alpha }
    let c := CameraCapture.connect p1.camera cenv
    let p2 := { p1 with camera := c.1 }
    if c.2 then { p2 with running := true } else p2

/-- Method `stop`: clears `_running`, cancels and awaits the loop task,
then disconnects the camera (releasing its handle) before returning. -/
def RoomProcessor.stop (p : RoomProcessor) : RoomProcessor :=
  { p with running := false, camera := CameraCapture.disconnect p.camera }

/-- Method `RoomProcessor.update_settings`: the hot-update path — only the
counter's alpha is touched. -/
def RoomProcessor.update_settings (p : RoomProcessor) (alpha : ℚ) : RoomProcessor :=
  { p with counter := PeopleCounter.set_alpha p.counter alpha }

/-! ### DetectionManager — src/backend/detector/manager.py, with the
settings models of src/backend/db/models.py -/

/-- The `_settings` dict of `DetectionManager` / the `Settings` model. -/
structure GlobalSettings where
  model : String
  confidence_threshold : ℚ
  detection_interval : ℤ
  smoothing_alpha : ℚ
  imgsz : ℤ
deriving Repr, DecidableEq

/-- The default `_settings` dict of `DetectionManager.__init__`. -/
def defaultSettings : GlobalSettings :=
  { model := "yolo11n.pt", confidence_threshold := 35/100,
    detection_interval := 15, smoothing_alpha := 3/10, imgsz := 640 }

/-- The Pydantic `SettingsUpdate` model: five optional fields, declared
with no range constraints (`models.py` lines 76-81). -/
structure SettingsUpdate where
  model : Option String
  confidence_threshold : Option ℚ
  detection_interval : Option ℤ
  smoothing_alpha : Option ℚ
  imgsz : Option ℤ
deriving Repr, DecidableEq

/-- An update providing none of the fields. -/
def SettingsUpdate.empty : SettingsUpdate :=
  { model := none, confidence_threshold := none, detection_interval := none,
    smoothing_alpha := none, imgsz := none }

/-- The `_rooms` dict: an association list whose keys are unique
(Python dict semantics). -/
abbrev RoomDict := List (String × RoomProcessor)

/-- Python `self._rooms[room_id] = processor`: replace the binding when the
key is present, append it otherwise. -/
def dictInsert (rs : RoomDict) (k : String) (v : RoomProcessor) : RoomDict :=
  if (rs.lookup k).isSome then
    rs.map (fun kv => if kv.1 = k then (k, v) else kv)
  else rs ++ [(k, v)]

/-- Python `del self._rooms[room_id]`. -/
def dictDelete (rs : RoomDict) (k : String) : RoomDict :=
  rs.filter (fun kv => kv.1 ≠ k)

/-- Ordered trace of lifecycle actions taken by manager operations. -/
inductive MgrEvent where
  | stoppedRoom (room_id : String)
  | createdRoom (room_id : String)
  | registeredRoom (room_id : String)
  | startedRoom (room_id : String)
deriving Repr, DecidableEq

/-- State of `DetectionManager.__init__`: the shared engine, the `_rooms`
dict and the global `_settings`. -/
structure DetectionManager where
  engine : DetectionEngine
  rooms : RoomDict
  settings : GlobalSettings
deriving Repr, DecidableEq

/-- Constructor state of `DetectionManager`. -/
def DetectionManager.init (device : String) : DetectionManager :=
  { engine := DetectionEngine.init "yolo26m.pt" device, rooms := [],
    settings := defaultSettings }

/-- Method `remove_room`: when present, stop the processor (releasing its
camera) and delete the binding; a no-op otherwise.  Also returns the
stopped processor so its final state is observable. -/
def DetectionManager.remove_room (m : DetectionManager) (room_id : String) :
    DetectionManager × List MgrEvent × Option RoomProcessor :=
  match m.rooms.lookup room_id with
  | some p =>
      let stopped := RoomProcessor.stop p
      ({ m with rooms := dictDelete m.rooms room_id },
       [MgrEvent.stoppedRoom room_id], some stopped)
  | none => (m, [], none)

/-- Method `add_room`: when a pipeline for the id already exists it is
stopped and discarded first; then a fresh processor is created and
registered, and when `is_active` it is started with the current global
settings snapshot (the started processor replaces the registered one,
mirroring in-place mutation). -/
def DetectionManager.add_room (m : DetectionManager) (room_id camera_url : String)
    (capacity : ℤ) (is_active : Bool) (cenv : ConnectEnv) :
    DetectionManager × List MgrEvent :=
  let step1 :=
    if (m.rooms.lookup room_id).isSome then
      let r := DetectionManager.remove_room m room_id
      (r.1, r.2.1)
    else (m, [])
  let m1 := step1.1
  let p := RoomProcessor.init room_id camera_url capacity
  let m2 := { m1 with rooms := dictInsert m1.rooms room_id p }
  let evs := step1.2 ++ [MgrEvent.createdRoom room_id, MgrEvent.registeredRoom room_id]
  if is_active then
    let ps := RoomProcessor.start p m2.settings.confidence_threshold
      m2.settings.imgsz m2.settings.smoothing_alpha cenv
    ({ m2 with rooms := dictInsert m2.rooms room_id ps },
     evs ++ [MgrEvent.startedRoom room_id])
  else (m2, evs)

/-- Method `DetectionManager.update_settings`: a provided, changed model id
is stored and flags a reload; the four numeric keys are merged
unconditionally when provided; after a possible engine reload, the current
global smoothing alpha is propagated to every processor through its
hot-update path. -/
def DetectionManager.update_settings (m : DetectionManager) (u : SettingsUpdate) :
    DetectionManager :=
  let s0 := m.settings
  let modelChanged : Bool :=
    match u.model with
    | some mp => decide (mp ≠ s0.model)
    | none => false
  let s1 := if modelChanged then { s0 with model := u.model.getD s0.model } else s0
  let s2 := { s1 with
    confidence_threshold := u.confidence_threshold.getD s1.confidence_threshold,
    detection_interval := u.detection_interval.getD s1.detection_interval,
    smoothing_alpha := u.smoothing_alpha.getD s1.smoothing_alpha,
    imgsz := u.imgsz.getD s1.imgsz }
  let eng := if modelChanged then DetectionEngine.reload_model m.engine s2.model
             else m.engine
  let rooms := m.rooms.map
    (fun kv => (kv.1, RoomProcessor.update_settings kv.2 s2.smoothing_alpha))
  { engine := eng, rooms := rooms, settings := s2 }

/-! ### ConnectionManager — src/backend/api/ws.py -/

/-- A websocket handle is opaque; only identity matters. -/
abbrev WS := ℕ

/-- Broadcast payloads are opaque; `json.dumps` is modelled by the
serialization event carrying the payload. -/
abbrev Payload := ℕ

/-- Observable effects of a broadcast call: one `json.dumps` serialization,
and one `send_text` attempt per connection. -/
inductive WsEvent where
  | serialized (data : Payload)
  | sentTo (ws : WS)
deriving Repr, DecidableEq

/-- State of `ConnectionManager.__init__`: the dashboard connection set and
the per-room connection sets, keyed by room id.  Python sets become
duplicate-free lists; a room key, once created, survives with an empty set
after its last member disconnects. -/
structure ConnectionManager where
  dashboard_connections : List WS
  room_connections : List (String × List WS)
deriving Repr, DecidableEq

/-- The manager singleton's initial state. -/
def ConnectionManager.init : ConnectionManager :=
  { dashboard_connections := [], room_connections := [] }

/-- Python `set.add`. -/
def setAdd (xs : List WS) (w : WS) : List WS :=
  if w ∈ xs then xs else xs ++ [w]

/-- Method `connect_dashboard`. -/
def ConnectionManager.connect_dashboard (m : ConnectionManager) (ws : WS) :
    ConnectionManager :=
  { m with dashboard_connections := setAdd m.dashboard_connections ws }

/-- Method `connect_room`: creates the room's (possibly empty) set on first
use, then adds the socket. -/
def ConnectionManager.connect_room (m : ConnectionManager) (ws : WS)
    (room_id : String) : ConnectionManager :=
  let withKey :=
    if (m.room_connections.lookup room_id).isSome then m.room_connections
    else m.room_connections ++ [(room_id, [])]
  { m with room_connections :=
      withKey.map (fun kv => if kv.1 = room_id then (kv.1, setAdd kv.2 ws) else kv) }

/-- Method `disconnect_dashboard`: `set.discard`. -/
def ConnectionManager.disconnect_dashboard (m : ConnectionManager) (ws : WS) :
    ConnectionManager :=
  { m with dashboard_connections := m.dashboard_connections.filter (fun w => w ≠ ws) }

/-- Method `disconnect_room`: discards the socket from the room's set when
the key exists; the key itself is never removed. -/
def ConnectionManager.disconnect_room (m : ConnectionManager) (ws : WS)
    (room_id : String) : ConnectionManager :=
  let updated := m.room_connections.map
    (fun kv => if kv.1 = room_id then (kv.1, kv.2.filter (fun w => w ≠ ws)) else kv)
  { m with room_connections := updated }

/-- Method `broadcast_dashboard`: returns before serializing when the
dashboard set is empty; otherwise serializes once, attempts a send to every
member of a snapshot copy (failures are caught), and finally removes the
failed members from the set.  `fails` is the environment telling which
sends raise. -/
def ConnectionManager.broadcast_dashboard (m : ConnectionManager) (data : Payload)
    (fails : WS → Bool) : ConnectionManager × List WsEvent :=
  if m.dashboard_connections = [] then (m, [])
  else
    let sends := m.dashboard_connections.map (fun c => WsEvent.sentTo c)
    let kept := m.dashboard_connections.filter (fun c => fails c = false)
    ({ m with dashboard_connections := kept }, WsEvent.serialized data :: sends)

/-- Method `broadcast_room`: returns before serializing only when the room
id has no entry at all; otherwise serializes once (even when the room's set
is empty), attempts the sends, and removes the failed members from the
room's set. -/
def ConnectionManager.broadcast_room (m : ConnectionManager) (room_id : String)
    (data : Payload) (fails : WS → Bool) : ConnectionManager × List WsEvent :=
  match m.room_connections.lookup room_id with
  | none => (m, [])
  | some conns =>
      let sends := conns.map (fun c => WsEvent.sentTo c)
      let updated := m.room_connections.map
        (fun kv =>
          if kv.1 = room_id then (kv.1, kv.2.filter (fun c => fails c = false))
          else kv)
      ({ m with room_connections := updated }, WsEvent.serialized data :: sends)

/-! ### Concrete execution traces used to settle the reconnect-policy
claims: a camera whose every read fails and whose every reconnect
succeeds. -/

/-- Environment of a failed read whose automatic reconnect succeeds. -/
def failEnv : GrabEnv :=
  { readResult := none, reconnect := ConnectEnv.opens true }

/-- Camera state after `n` consecutive `grab_frame` calls under `failEnv`. -/
def camAfterFails (s : CameraCapture) : ℕ → CameraCapture
  | 0 => s
  | n + 1 => (CameraCapture.grab_frame (camAfterFails s n) failEnv).1

/-- Concatenated event trace of `n` consecutive `grab_frame` calls under
`failEnv`. -/
def camFailEvents (s : CameraCapture) : ℕ → List CamEvent
  | 0 => []
  | n + 1 =>
      camFailEvents s n ++ (CameraCapture.grab_frame (camAfterFails s n) failEnv).2.2

/-- Keys of the `_rooms` dict. -/
def keysOf (rs : RoomDict) : List String :=
  rs.map (fun kv => kv.1)

/-- A freshly constructed camera after one successful `connect`. -/
def camStartConnected : CameraCapture :=
  (CameraCapture.connect (CameraCapture.init "0" "lobby") (ConnectEnv.opens true)).1

/-- A freshly added room processor after a successful `start`. -/
def roomProcRunning : RoomProcessor :=
  RoomProcessor.start (RoomProcessor.init "lobby" "0" 100) (35/100) 640 (3/10)
    (ConnectEnv.opens true)

/-- A cycle whose frame grab succeeds but whose detector call raises. -/
def cycleEnvRaise : CycleEnv :=
  { grab := Except.ok { readResult := some 5, reconnect := ConnectEnv.opens true },
    detectRes := Except.error (), encodeRes := Except.ok 0,
    callbackRes := Except.ok (), stopRequested := false }

/-- A cycle in which every step succeeds. -/
def cycleEnvOk : CycleEnv :=
  { grab := Except.ok { readResult := some 5, reconnect := ConnectEnv.opens true },
    detectRes := Except.ok (3, 5), encodeRes := Except.ok 9,
    callbackRes := Except.ok (), stopRequested := false }

/-! ## Helper lemmas -/

/-- The rounding used by `smoothed_count` is a nearest-integer rounding:
it never strays more than 1/2 from its argument. -/
lemma pyRound_nearest (q : ℚ) : |(pyRound q : ℚ) - q| ≤ 1/2 := by
  have h0 : ((⌊q⌋ : ℤ) : ℚ) ≤ q := Int.floor_le q
  have h1 : q < (⌊q⌋ : ℤ) + 1 := Int.lt_floor_add_one q
  unfold pyRound
  by_cases hlt : q - (⌊q⌋ : ℚ) < 1/2
  · rw [if_pos hlt, abs_le]
    constructor <;> linarith
  · rw [if_neg hlt]
    by_cases hgt : (1 : ℚ)/2 < q - (⌊q⌋ : ℚ)
    · rw [if_pos hgt, abs_le]
      push_cast
      constructor <;> linarith
    · rw [if_neg hgt]
      by_cases hev : ⌊q⌋ % 2 = 0
      · rw [if_pos hev, abs_le]
        constructor <;> linarith [le_of_not_lt hlt, le_of_not_lt hgt]
      · rw [if_neg hev, abs_le]
        push_cast
        constructor <;> linarith [le_of_not_lt hlt, le_of_not_lt hgt]

/-- Rounding an integer returns it unchanged. -/
lemma pyRound_intCast (n : ℤ) : pyRound (n : ℚ) = n := by
  unfold pyRound
  rw [Int.floor_intCast]
  rw [if_pos]
  rw [sub_self]
  norm_num

/-- One loop cycle never touches the `_running` flag: only `stop()` (and
`start`) do. -/
lemma runCycle_running (p : RoomProcessor) (e : CycleEnv) :
    (RoomProcessor.runCycle p e).1.running = p.running := by
  obtain ⟨g, d, enc, cb, st⟩ := e
  cases g with
  | error u => rfl
  | ok genv =>
      simp only [RoomProcessor.runCycle]
      cases hres : (CameraCapture.grab_frame p.camera genv).2.1 with
      | none => rfl
      | some f =>
          cases d with
          | error u => rfl
          | ok dd =>
              cases enc with
              | error u => rfl
              | ok e1 =>
                  cases cb with
                  | error u => rfl
                  | ok u => rfl

/-- Auxiliary induction for the loop: with no stop request in the
environment list, every cycle is processed and the loop is still running
afterwards. -/
lemma process_loop_no_stop (interval : ℤ) (envs : List CycleEnv) :
    ∀ p : RoomProcessor, p.running = true →
    (∀ e ∈ envs, e.stopRequested = false) →
    (RoomProcessor.process_loop p interval envs).2.length = envs.length ∧
    (RoomProcessor.process_loop p interval envs).1.running = true := by
  induction envs with
  | nil =>
      intro p hp _
      exact ⟨rfl, hp⟩
  | cons e es ih =>
      intro p hp h
      have hstop : e.stopRequested = false := h e (List.mem_cons_self e es)
      have hrest := ih (RoomProcessor.runCycle p e).1
        (by rw [runCycle_running]; exact hp)
        (fun x hx => h x (List.mem_cons_of_mem e hx))
      simp only [RoomProcessor.process_loop, hp, if_true, hstop, Bool.false_eq_true,
        if_false, List.length_cons]
      exact ⟨by rw [hrest.1], hrest.2⟩

/-- Appending a fresh binding makes it the lookup result for its key. -/
lemma lookup_append_single (k : String) (v : RoomProcessor) :
    ∀ rs : RoomDict, (List.lookup k rs).isSome = false →
    List.lookup k (rs ++ [(k, v)]) = some v := by
  intro rs
  induction rs with
  | nil =>
      intro _
      simp [List.lookup]
  | cons kv rest ih =>
      intro h
      obtain ⟨k1, v1⟩ := kv
      rw [List.cons_append]
      simp only [List.lookup] at h ⊢
      cases hbeq : (k == k1) with
      | true =>
          rw [hbeq] at h
          simp at h
      | false =>
          rw [hbeq] at h
          exact ih h

/-- Replacing the bound value of a present key makes it the lookup
result. -/
lemma lookup_map_replace (k : String) (v : RoomProcessor) :
    ∀ rs : RoomDict, (List.lookup k rs).isSome = true →
    List.lookup k (rs.map (fun kv => if kv.1 = k then (k, v) else kv)) = some v := by
  intro rs
  induction rs with
  | nil =>
      intro h
      simp [List.lookup] at h
  | cons kv rest ih =>
      intro h
      obtain ⟨k1, v1⟩ := kv
      simp only [List.map_cons]
      by_cases hk : k1 = k
      · subst hk
        rw [if_pos rfl]
        simp [List.lookup]
      · rw [if_neg (by simpa using hk)]
        simp only [List.lookup] at h ⊢
        have hbeq : (k == k1) = false := by
          simp only [beq_eq_false_iff_ne, ne_eq]
          exact fun he => hk he.symm
        rw [hbeq] at h ⊢
        exact ih h

/-- Dict assignment binds the key to the new value. -/
lemma lookup_dictInsert (rs : RoomDict) (k : String) (v : RoomProcessor) :
    List.lookup k (dictInsert rs k v) = some v := by
  unfold dictInsert
  cases h : (List.lookup k rs).isSome with
  | true =>
      rw [if_pos rfl]
      exact lookup_map_replace k v rs h
  | false =>
      rw [if_neg Bool.false_ne_true]
      exact lookup_append_single k v rs h

/-- A missing key is exactly a key outside the key list. -/
lemma lookup_eq_none_iff_not_mem (k : String) :
    ∀ rs : RoomDict, List.lookup k rs = none ↔ k ∉ keysOf rs := by
  intro rs
  induction rs with
  | nil => simp [keysOf, List.lookup]
  | cons kv rest ih =>
      obtain ⟨k1, v1⟩ := kv
      simp only [List.lookup, keysOf, List.map_cons, List.mem_cons]
      cases hbeq : (k == k1) with
      | true =>
          have hke : k = k1 := by simpa using hbeq
          subst hke
          simp
      | false =>
          have hne : ¬ k = k1 := by simpa using hbeq
          simp only [hne, false_or]
          simpa [keysOf] using ih

/-- Dict assignment leaves the key list unchanged when the key was present
and appends it otherwise; either way key uniqueness is preserved. -/
lemma nodup_keys_dictInsert (rs : RoomDict) (k : String) (v : RoomProcessor)
    (h : (keysOf rs).Nodup) : (keysOf (dictInsert rs k v)).Nodup := by
  unfold dictInsert
  by_cases hp : (List.lookup k rs).isSome
  · rw [if_pos hp]
    have hk : keysOf (rs.map (fun kv => if kv.1 = k then (k, v) else kv)) = keysOf rs := by
      unfold keysOf
      rw [List.map_map]
      refine List.map_congr_left ?_
      intro kv _
      by_cases hkv : kv.1 = k
      · simp [hkv]
      · simp [hkv]
    rw [hk]
    exact h
  · rw [if_neg hp]
    have hnm : k ∉ keysOf rs := by
      rw [← lookup_eq_none_iff_not_mem k rs]
      exact Option.not_isSome_iff_eq_none.1 hp
    unfold keysOf at *
    rw [List.map_append]
    simp [List.nodup_append, h, hnm]

/-- Dict deletion preserves key uniqueness. -/
lemma nodup_keys_dictDelete (rs : RoomDict) (k : String)
    (h : (keysOf rs).Nodup) : (keysOf (dictDelete rs k)).Nodup := by
  unfold dictDelete keysOf at *
  exact h.sublist ((List.filter_sublist rs).map (fun kv => kv.1))

/-! ## Claims -/

/-- C10: for every `PeopleCounter` with the smoothed value unset — as after
construction or `reset` — the `smoothed_count` accessor returns 0 rather
than failing or returning an absent value. -/
theorem c10_smoothed_count_unset_zero (room : String) (a : ℚ)
    (c0 c : PeopleCounter) (h : c.smoothedVal = none) :
    (PeopleCounter.init room a).smoothedVal = none ∧
    (PeopleCounter.reset c0).smoothedVal = none ∧
    c.smoothed_count = 0 := by
  refine ⟨rfl, rfl, ?_⟩
  unfold PeopleCounter.smoothed_count
  rw [h]

/-- Witness for C10 at a concrete freshly constructed counter. -/
theorem c10_smoothed_count_unset_zero_witness :
    (PeopleCounter.init "lobby" (3/10)).smoothedVal = none ∧
    (PeopleCounter.reset (PeopleCounter.init "lobby" (3/10))).smoothedVal = none ∧
    (PeopleCounter.init "lobby" (3/10)).smoothed_count = 0 :=
  c10_smoothed_count_unset_zero "lobby" (3/10)
    (PeopleCounter.init "lobby" (3/10)) (PeopleCounter.init "lobby" (3/10)) rfl

/-- C1 counterexample: a disconnected camera holding a last-known-good
frame (reachable after a failed read whose reconnect failed) returns `none`
from `grab_frame`, not the stored frame, refuting "returns the
last-known-good frame". -/
theorem c1_counterexample :
    (CameraCapture.grab_frame
        { source := "0", room_id := "lobby", cap := some (), connected := false,
          lastFrame := some 7, reconnectAttempts := 1, maxReconnectAttempts := 5 }
        { readResult := some 9, reconnect := ConnectEnv.opens true }).2.1 = none ∧
    ({ source := "0", room_id := "lobby", cap := some (), connected := false,
       lastFrame := some 7, reconnectAttempts := 1,
       maxReconnectAttempts := 5 : CameraCapture }).lastFrame = some 7 ∧
    (none : Option Frame) ≠ some 7 := by
  refine ⟨rfl, rfl, ?_⟩
  decide

/-- C1 amended: `grab_frame` on a disconnected source returns no frame at
all — `None`, regardless of any stored last-known-good frame — leaves the
state unchanged, and performs no I/O read and no connect attempt. -/
theorem c1_grab_disconnected (s : CameraCapture) (env : GrabEnv)
    (h : s.connected = false) :
    CameraCapture.grab_frame s env = (s, none, []) := by
  unfold CameraCapture.grab_frame
  rw [if_pos (Or.inl h)]

/-- Witness for the amended C1 at a concrete disconnected camera. -/
theorem c1_grab_disconnected_witness :
    CameraCapture.grab_frame
        { source := "0", room_id := "lobby", cap := some (), connected := false,
          lastFrame := some 7, reconnectAttempts := 1, maxReconnectAttempts := 5 }
        { readResult := some 9, reconnect := ConnectEnv.opens true } =
      ({ source := "0", room_id := "lobby", cap := some (), connected := false,
         lastFrame := some 7, reconnectAttempts := 1, maxReconnectAttempts := 5 },
       none, []) :=
  c1_grab_disconnected _ _ rfl

/-- C2: the first `update` stores exactly the raw count as the smoothed
value; every later `update` stores `alpha * raw + (1 - alpha) * previous`;
and the returned integer is the nearest-integer rounding (ties to even) of
the freshly stored internal value. -/
theorem c2_ema_update (c : PeopleCounter) (raw : ℤ) :
    (c.smoothedVal = none →
        (c.update raw).1.smoothedVal = some ((raw : ℚ))) ∧
    (∀ prev : ℚ, c.smoothedVal = some prev →
        (c.update raw).1.smoothedVal =
          some (c.alpha * (raw : ℚ) + (1 - c.alpha) * prev)) ∧
    (∀ s : ℚ, (c.update raw).1.smoothedVal = some s →
        (c.update raw).2 = pyRound s ∧ |(pyRound s : ℚ) - s| ≤ 1/2) := by
  refine ⟨?_, ?_, ?_⟩
  · intro h
    unfold PeopleCounter.update
    rw [h]
  · intro prev h
    unfold PeopleCounter.update
    rw [h]
  · intro s h
    refine ⟨?_, pyRound_nearest s⟩
    unfold PeopleCounter.update at h ⊢
    unfold PeopleCounter.smoothed_count
    cases hc : c.smoothedVal with
    | none =>
        rw [hc] at h
        simp only [hc]
        simp only at h
        rw [Option.some.inj h]
    | some prev =>
        rw [hc] at h
        simp only [hc]
        simp only at h
        rw [Option.some.inj h]

/-- Witness for C2: the spec scenario raw counts 10 then 20 with alpha 0.3
give smoothed values 10 and 13 exactly. -/
theorem c2_ema_update_witness :
    ((PeopleCounter.init "lobby" (3/10)).update 10).1.smoothedVal = some 10 ∧
    ((PeopleCounter.mk "lobby" (3/10) (some 10) 10).update 20).1.smoothedVal = some 13 ∧
    ((PeopleCounter.mk "lobby" (3/10) (some 10) 10).update 20).2 = 13 := by
  have h1 := (c2_ema_update (PeopleCounter.init "lobby" (3/10)) 10).1 rfl
  have h2 := (c2_ema_update (PeopleCounter.mk "lobby" (3/10) (some 10) 10) 20).2.1 10 rfl
  have h3 := ((c2_ema_update (PeopleCounter.mk "lobby" (3/10) (some 10) 10) 20).2.2 _ h2).1
  have hval : (PeopleCounter.mk "lobby" (3/10) (some 10) 10).alpha * ((20 : ℤ) : ℚ) +
      (1 - (PeopleCounter.mk "lobby" (3/10) (some 10) 10).alpha) * 10 = ((13 : ℤ) : ℚ) := by
    norm_num
  refine ⟨?_, ?_, ?_⟩
  · rw [h1]
    norm_num
  · rw [h2, hval]
    norm_num
  · rw [h3, hval, pyRound_intCast]

/-- C4 counterexample: with every read failing and every automatic
reconnect succeeding, five consecutive failed reads each issue a
`connect()` (five calls in five reads), and the sixth consecutive failed
read still issues one more automatic `connect()` — refuting that after
exactly 5 consecutive failed reads no further automatic connect is ever
issued by subsequent failed reads.  Each `connect` success resets the
attempt counter, so it never exceeds the maximum through reads alone. -/
theorem c4_counterexample :
    (camFailEvents camStartConnected 5).count CamEvent.ioRead = 5 ∧
    (camFailEvents camStartConnected 5).count CamEvent.connectCall = 5 ∧
    (CameraCapture.grab_frame (camAfterFails camStartConnected 5) failEnv).2.1 =
      (camAfterFails camStartConnected 5).lastFrame ∧
    (CameraCapture.grab_frame (camAfterFails camStartConnected 5) failEnv).2.2.count
        CamEvent.connectCall = 1 := by
  decide

/-- C4 amended: each failed read increments the attempt counter and issues
exactly one automatic `connect()` precisely when the incremented counter is
still within the maximum of 5 (and none once it exceeds 5); the counter
returns to zero only on the next successful `connect` (a failed `connect`
leaves it untouched); and because a successful automatic reconnect itself
resets the counter and reconnects, consecutive failed reads keep issuing
automatic connect attempts rather than stopping after five. -/
theorem c4_reconnect_policy (s : CameraCapture) (genv : GrabEnv) (cenv : ConnectEnv)
    (hc : s.connected = true) (hcap : s.cap = some ()) (hread : genv.readResult = none) :
    ((CameraCapture.grab_frame s genv).2.2.count CamEvent.connectCall =
        (if s.reconnectAttempts + 1 ≤ s.maxReconnectAttempts then 1 else 0)) ∧
    ((CameraCapture.grab_frame s genv).1.reconnectAttempts =
        (if s.reconnectAttempts + 1 ≤ s.maxReconnectAttempts then
          (if genv.reconnect = ConnectEnv.opens true then 0 else s.reconnectAttempts + 1)
         else s.reconnectAttempts + 1)) ∧
    ((CameraCapture.connect s cenv).2 = true →
        (CameraCapture.connect s cenv).1.reconnectAttempts = 0) ∧
    ((CameraCapture.connect s cenv).2 = false →
        (CameraCapture.connect s cenv).1.reconnectAttempts = s.reconnectAttempts) ∧
    (genv.reconnect = ConnectEnv.opens true →
        s.reconnectAttempts + 1 ≤ s.maxReconnectAttempts →
        (CameraCapture.grab_frame s genv).1.connected = true) := by
  have hgrab : CameraCapture.grab_frame s genv =
      (let r := CameraCapture.handle_disconnect s genv.reconnect
       (r.1, s.lastFrame, CamEvent.ioRead :: r.2)) := by
    unfold CameraCapture.grab_frame
    rw [if_neg, hread]
    rw [hc, hcap]
    simp
  refine ⟨?_, ?_, ?_, ?_, ?_⟩
  · rw [hgrab]
    unfold CameraCapture.handle_disconnect
    by_cases hle : s.reconnectAttempts + 1 ≤ s.maxReconnectAttempts
    · simp only [hle, if_pos, if_true]
      decide
    · simp only [hle, if_neg, if_false]
      decide
  · rw [hgrab]
    unfold CameraCapture.handle_disconnect
    by_cases hle : s.reconnectAttempts + 1 ≤ s.maxReconnectAttempts
    · simp only [hle, if_true]
      cases hre : genv.reconnect with
      | raises => simp [CameraCapture.connect, hre]
      | opens ok =>
          cases ok with
          | true => simp [CameraCapture.connect]
          | false => simp [CameraCapture.connect]
    · simp [hle]
  · intro hok
    cases cenv with
    | raises => simp [CameraCapture.connect] at hok
    | opens ok =>
        cases ok with
        | true => simp [CameraCapture.connect]
        | false => simp [CameraCapture.connect] at hok
  · intro hfail
    cases cenv with
    | raises => simp [CameraCapture.connect]
    | opens ok =>
        cases ok with
        | true => simp [CameraCapture.connect] at hfail
        | false => simp [CameraCapture.connect]
  · intro hre hle
    rw [hgrab]
    unfold CameraCapture.handle_disconnect
    simp only [hle, if_true, hre]
    simp [CameraCapture.connect]

/-- Witness for the amended C4 at the concrete connected camera with a
failing read and a succeeding reconnect. -/
theorem c4_reconnect_policy_witness :
    ((CameraCapture.grab_frame camStartConnected failEnv).2.2.count CamEvent.connectCall =
        (if camStartConnected.reconnectAttempts + 1 ≤
            camStartConnected.maxReconnectAttempts then 1 else 0)) ∧
    ((CameraCapture.grab_frame camStartConnected failEnv).1.reconnectAttempts =
        (if camStartConnected.reconnectAttempts + 1 ≤
            camStartConnected.maxReconnectAttempts then
          (if failEnv.reconnect = ConnectEnv.opens true then 0
           else camStartConnected.reconnectAttempts + 1)
         else camStartConnected.reconnectAttempts + 1)) ∧
    ((CameraCapture.connect camStartConnected (ConnectEnv.opens true)).2 = true →
        (CameraCapture.connect camStartConnected
          (ConnectEnv.opens true)).1.reconnectAttempts = 0) ∧
    ((CameraCapture.connect camStartConnected (ConnectEnv.opens true)).2 = false →
        (CameraCapture.connect camStartConnected
          (ConnectEnv.opens true)).1.reconnectAttempts =
          camStartConnected.reconnectAttempts) ∧
    (failEnv.reconnect = ConnectEnv.opens true →
        camStartConnected.reconnectAttempts + 1 ≤
          camStartConnected.maxReconnectAttempts →
        (CameraCapture.grab_frame camStartConnected failEnv).1.connected = true) :=
  c4_reconnect_policy camStartConnected failEnv (ConnectEnv.opens true) rfl rfl rfl

/-- C3: when no stop is requested the processing loop executes every cycle
and keeps running; a cycle in which any of steps 1-5 raises is caught and
completes no callback; and after any cycle — raising or not — the loop
continues with the remaining cycles after the interval sleep.  Termination
therefore happens only through a stop request. -/
theorem c3_loop_resilient (p : RoomProcessor) (interval : ℤ) (envs : List CycleEnv)
    (hrun : p.running = true) :
    ((∀ e ∈ envs, e.stopRequested = false) →
        (RoomProcessor.process_loop p interval envs).2.length = envs.length ∧
        (RoomProcessor.process_loop p interval envs).1.running = true) ∧
    (∀ (q : RoomProcessor) (e : CycleEnv),
        (RoomProcessor.runCycle q e).2.2 = true →
        (RoomProcessor.runCycle q e).2.1 = none) ∧
    (∀ (q : RoomProcessor) (e : CycleEnv) (es : List CycleEnv), q.running = true →
        (RoomProcessor.process_loop q interval (e :: es)).2 =
          CycleOut.mk (RoomProcessor.runCycle q e).2.1
              (RoomProcessor.runCycle q e).2.2 interval ::
            (RoomProcessor.process_loop
              (if e.stopRequested then
                { (RoomProcessor.runCycle q e).1 with running := false }
               else (RoomProcessor.runCycle q e).1) interval es).2) := by
  refine ⟨process_loop_no_stop interval envs p hrun, ?_, ?_⟩
  · intro q e
    obtain ⟨g, d, enc, cb, st⟩ := e
    cases g with
    | error u => intro _; rfl
    | ok genv =>
        simp only [RoomProcessor.runCycle]
        cases hres : (CameraCapture.grab_frame q.camera genv).2.1 with
        | none => intro h; exact absurd h (by simp)
        | some f =>
            cases d with
            | error u => intro _; rfl
            | ok dd =>
                cases enc with
                | error u => intro _; rfl
                | ok e1 =>
                    cases cb with
                    | error u => intro _; rfl
                    | ok u => intro h; exact absurd h (by simp)
  · intro q e es hq
    simp only [RoomProcessor.process_loop, hq, if_true]

/-- Witness for C3: a two-cycle run whose first cycle's detector raises —
both cycles are processed, the loop is still running, and the raising
cycle completed no callback. -/
theorem c3_loop_resilient_witness :
    (RoomProcessor.process_loop roomProcRunning 15 [cycleEnvRaise, cycleEnvOk]).2.length
        = 2 ∧
    (RoomProcessor.process_loop roomProcRunning 15
        [cycleEnvRaise, cycleEnvOk]).1.running = true ∧
    (RoomProcessor.runCycle roomProcRunning cycleEnvRaise).2.1 = none := by
  have h := c3_loop_resilient roomProcRunning 15 [cycleEnvRaise, cycleEnvOk] rfl
  have h1 := h.1 (by decide)
  exact ⟨h1.1, h1.2, h.2.1 roomProcRunning cycleEnvRaise (by decide)⟩

/-- C5 counterexample: an update carrying `confidence_threshold = 2`,
`detection_interval = 0` and `smoothing_alpha = -1` — each outside its
declared range — is merged into the global settings unchanged, refuting
that provided values are validated and rejected values are not applied. -/
theorem c5_counterexample :
    (DetectionManager.update_settings (DetectionManager.init "cpu")
        (SettingsUpdate.mk none (some 2) (some 0) (some (-1))
          none)).settings.confidence_threshold = 2 ∧
    (DetectionManager.update_settings (DetectionManager.init "cpu")
        (SettingsUpdate.mk none (some 2) (some 0) (some (-1))
          none)).settings.detection_interval = 0 ∧
    (DetectionManager.update_settings (DetectionManager.init "cpu")
        (SettingsUpdate.mk none (some 2) (some 0) (some (-1))
          none)).settings.smoothing_alpha = -1 ∧
    ¬ ((2 : ℚ) ≤ 1) ∧ ¬ ((1 : ℤ) ≤ 0) ∧ ¬ ((0 : ℚ) ≤ -1) := by
  refine ⟨rfl, rfl, rfl, by norm_num, by norm_num, by norm_num⟩

/-- C5 amended: `update_settings` performs no range validation — every
provided value is merged into the global settings as given, in range or
not; the smoothing alpha is clamped into [0, 1] only where it is
propagated into each pipeline's counter via `set_alpha`. -/
theorem c5_merge_unvalidated (m : DetectionManager) (u : SettingsUpdate) :
    (DetectionManager.update_settings m u).settings.confidence_threshold =
      u.confidence_threshold.getD m.settings.confidence_threshold ∧
    (DetectionManager.update_settings m u).settings.detection_interval =
      u.detection_interval.getD m.settings.detection_interval ∧
    (DetectionManager.update_settings m u).settings.smoothing_alpha =
      u.smoothing_alpha.getD m.settings.smoothing_alpha ∧
    (DetectionManager.update_settings m u).settings.imgsz =
      u.imgsz.getD m.settings.imgsz ∧
    (∀ kv ∈ (DetectionManager.update_settings m u).rooms,
        kv.2.counter.alpha =
          max 0 (min 1 (u.smoothing_alpha.getD m.settings.smoothing_alpha))) := by
  simp only [DetectionManager.update_settings]
  refine ⟨?_, ?_, ?_, ?_, ?_⟩
  · split <;> rfl
  · split <;> rfl
  · split <;> rfl
  · split <;> rfl
  · intro kv hkv
    rw [List.mem_map] at hkv
    obtain ⟨kv0, _, hkv0⟩ := hkv
    rw [← hkv0]
    simp only [RoomProcessor.update_settings, PeopleCounter.set_alpha]
    split <;> rfl

/-- Witness for the amended C5 on a manager with one registered room and an
out-of-range update. -/
theorem c5_merge_unvalidated_witness :
    (DetectionManager.update_settings
        { engine := DetectionEngine.init "yolo26m.pt" "cpu",
          rooms := [("lobby", RoomProcessor.init "lobby" "0" 100)],
          settings := defaultSettings }
        (SettingsUpdate.mk none (some 2) none (some 7) none)).settings.confidence_threshold
      = (some (2 : ℚ)).getD defaultSettings.confidence_threshold ∧
    (∀ kv ∈ (DetectionManager.update_settings
        { engine := DetectionEngine.init "yolo26m.pt" "cpu",
          rooms := [("lobby", RoomProcessor.init "lobby" "0" 100)],
          settings := defaultSettings }
        (SettingsUpdate.mk none (some 2) none (some 7) none)).rooms,
      kv.2.counter.alpha =
        max 0 (min 1 ((some (7 : ℚ)).getD defaultSettings.smoothing_alpha))) := by
  have h := c5_merge_unvalidated
    { engine := DetectionEngine.init "yolo26m.pt" "cpu",
      rooms := [("lobby", RoomProcessor.init "lobby" "0" 100)],
      settings := defaultSettings }
    (SettingsUpdate.mk none (some 2) none (some 7) none)
  exact ⟨h.1, h.2.2.2.2⟩

/-- C6: `add_room` keeps the rooms dict keyed uniquely (at most one
pipeline per id); when a pipeline for the id already exists the emitted
action trace stops it strictly before creating and registering the new one;
a stopped pipeline has released its camera handle; and afterwards the id is
bound exactly to the freshly created (and, when active, started)
pipeline. -/
theorem c6_add_room_replace (m : DetectionManager) (room_id camera_url : String)
    (capacity : ℤ) (is_active : Bool) (cenv : ConnectEnv)
    (hkeys : (keysOf m.rooms).Nodup) :
    (keysOf (DetectionManager.add_room m room_id camera_url capacity
        is_active cenv).1.rooms).Nodup ∧
    (∀ pOld, List.lookup room_id m.rooms = some pOld →
        (DetectionManager.add_room m room_id camera_url capacity is_active cenv).2 =
          MgrEvent.stoppedRoom room_id :: MgrEvent.createdRoom room_id ::
            MgrEvent.registeredRoom room_id ::
            (if is_active then [MgrEvent.startedRoom room_id] else [])) ∧
    (∀ p : RoomProcessor, (RoomProcessor.stop p).camera.cap = none ∧
        (RoomProcessor.stop p).camera.connected = false ∧
        (RoomProcessor.stop p).running = false) ∧
    List.lookup room_id (DetectionManager.add_room m room_id camera_url capacity
        is_active cenv).1.rooms =
      some (if is_active then
              RoomProcessor.start (RoomProcessor.init room_id camera_url capacity)
                m.settings.confidence_threshold m.settings.imgsz
                m.settings.smoothing_alpha cenv
            else RoomProcessor.init room_id camera_url capacity) := by
  by_cases hex : (List.lookup room_id m.rooms).isSome = true
  · obtain ⟨pOld0, hp⟩ := Option.isSome_iff_exists.1 hex
    refine ⟨?_, ?_, fun p => ⟨rfl, rfl, rfl⟩, ?_⟩
    · simp only [DetectionManager.add_room, DetectionManager.remove_room, hp,
        Option.isSome_some, if_true]
      cases is_active with
      | true =>
          simp only [if_true]
          exact nodup_keys_dictInsert _ _ _
            (nodup_keys_dictInsert _ _ _ (nodup_keys_dictDelete _ _ hkeys))
      | false =>
          simp only [Bool.false_eq_true, if_false]
          exact nodup_keys_dictInsert _ _ _ (nodup_keys_dictDelete _ _ hkeys)
    · intro pOld hpe
      simp only [DetectionManager.add_room, DetectionManager.remove_room, hpe,
        Option.isSome_some, if_true]
      cases is_active with
      | true => simp
      | false => simp
    · simp only [DetectionManager.add_room, DetectionManager.remove_room, hp,
        Option.isSome_some, if_true]
      cases is_active with
      | true =>
          simp only [if_true]
          exact lookup_dictInsert _ _ _
      | false =>
          simp only [Bool.false_eq_true, if_false]
          exact lookup_dictInsert _ _ _
  · have hex2 : (List.lookup room_id m.rooms).isSome = false :=
      Bool.eq_false_iff.2 hex
    refine ⟨?_, ?_, fun p => ⟨rfl, rfl, rfl⟩, ?_⟩
    · simp only [DetectionManager.add_room, hex2, Bool.false_eq_true, if_false]
      cases is_active with
      | true =>
          simp only [if_true]
          exact nodup_keys_dictInsert _ _ _ (nodup_keys_dictInsert _ _ _ hkeys)
      | false =>
          simp only [Bool.false_eq_true, if_false]
          exact nodup_keys_dictInsert _ _ _ hkeys
    · intro pOld hpe
      rw [hpe] at hex2
      simp at hex2
    · simp only [DetectionManager.add_room, hex2, Bool.false_eq_true, if_false]
      cases is_active with
      | true =>
          simp only [if_true]
          exact lookup_dictInsert _ _ _
      | false =>
          simp only [Bool.false_eq_true, if_false]
          exact lookup_dictInsert _ _ _

/-- Witness for C6: re-adding id "lobby" on a manager that already holds a
pipeline for it. -/
theorem c6_add_room_replace_witness :
    (keysOf (DetectionManager.add_room
        { engine := DetectionEngine.init "yolo26m.pt" "cpu",
          rooms := [("lobby", RoomProcessor.init "lobby" "0" 100)],
          settings := defaultSettings }
        "lobby" "1" 50 true (ConnectEnv.opens true)).1.rooms).Nodup ∧
    (DetectionManager.add_room
        { engine := DetectionEngine.init "yolo26m.pt" "cpu",
          rooms := [("lobby", RoomProcessor.init "lobby" "0" 100)],
          settings := defaultSettings }
        "lobby" "1" 50 true (ConnectEnv.opens true)).2 =
      MgrEvent.stoppedRoom "lobby" :: MgrEvent.createdRoom "lobby" ::
        MgrEvent.registeredRoom "lobby" ::
        (if true then [MgrEvent.startedRoom "lobby"] else []) ∧
    List.lookup "lobby" (DetectionManager.add_room
        { engine := DetectionEngine.init "yolo26m.pt" "cpu",
          rooms := [("lobby", RoomProcessor.init "lobby" "0" 100)],
          settings := defaultSettings }
        "lobby" "1" 50 true (ConnectEnv.opens true)).1.rooms =
      some (if true then
              RoomProcessor.start (RoomProcessor.init "lobby" "1" 50)
                defaultSettings.confidence_threshold defaultSettings.imgsz
                defaultSettings.smoothing_alpha (ConnectEnv.opens true)
            else RoomProcessor.init "lobby" "1" 50) := by
  have h := c6_add_room_replace
    { engine := DetectionEngine.init "yolo26m.pt" "cpu",
      rooms := [("lobby", RoomProcessor.init "lobby" "0" 100)],
      settings := defaultSettings }
    "lobby" "1" 50 true (ConnectEnv.opens true) (by simp [keysOf])
  exact ⟨h.1, h.2.1 (RoomProcessor.init "lobby" "0" 100) (by simp [List.lookup]),
    h.2.2.2⟩

/-- C7: a settings update providing a smoothing alpha stores it globally
and rewrites every pipeline through the hot-update path, touching only the
counter's alpha (clamped into [0, 1] by `set_alpha`); every pipeline's
camera — in particular its connection state — is bitwise identical before
and after, so no connection is closed or reopened. -/
theorem c7_hot_update_alpha (m : DetectionManager) (u : SettingsUpdate) (x : ℚ)
    (hx : u.smoothing_alpha = some x) :
    (DetectionManager.update_settings m u).settings.smoothing_alpha = x ∧
    (DetectionManager.update_settings m u).rooms =
      m.rooms.map (fun kv =>
        (kv.1, { kv.2 with
          counter := { kv.2.counter with alpha := max 0 (min 1 x) } })) ∧
    (DetectionManager.update_settings m u).rooms.map (fun kv => kv.2.camera) =
      m.rooms.map (fun kv => kv.2.camera) ∧
    (∀ kv ∈ (DetectionManager.update_settings m u).rooms,
        kv.2.counter.alpha = max 0 (min 1 x)) := by
  have hrooms : (DetectionManager.update_settings m u).rooms =
      m.rooms.map (fun kv =>
        (kv.1, { kv.2 with
          counter := { kv.2.counter with alpha := max 0 (min 1 x) } })) := by
    simp only [DetectionManager.update_settings, hx, Option.getD_some]
    rfl
  refine ⟨?_, hrooms, ?_, ?_⟩
  · simp only [DetectionManager.update_settings, hx, Option.getD_some]
  · rw [hrooms, List.map_map]
    rfl
  · intro kv hkv
    rw [hrooms, List.mem_map] at hkv
    obtain ⟨kv0, _, hkv0⟩ := hkv
    rw [← hkv0]

/-- Witness for C7 on a manager with one registered room and the update
providing alpha 1/2. -/
theorem c7_hot_update_alpha_witness :
    (DetectionManager.update_settings
        { engine := DetectionEngine.init "yolo26m.pt" "cpu",
          rooms := [("lobby", RoomProcessor.init "lobby" "0" 100)],
          settings := defaultSettings }
        (SettingsUpdate.mk none none none (some (1/2))
          none)).settings.smoothing_alpha = 1/2 ∧
    (DetectionManager.update_settings
        { engine := DetectionEngine.init "yolo26m.pt" "cpu",
          rooms := [("lobby", RoomProcessor.init "lobby" "0" 100)],
          settings := defaultSettings }
        (SettingsUpdate.mk none none none (some (1/2)) none)).rooms.map
        (fun kv => kv.2.camera) =
      [("lobby", RoomProcessor.init "lobby" "0" 100)].map (fun kv => kv.2.camera) ∧
    (∀ kv ∈ (DetectionManager.update_settings
        { engine := DetectionEngine.init "yolo26m.pt" "cpu",
          rooms := [("lobby", RoomProcessor.init "lobby" "0" 100)],
          settings := defaultSettings }
        (SettingsUpdate.mk none none none (some (1/2)) none)).rooms,
      kv.2.counter.alpha = max 0 (min 1 (1/2))) := by
  have h := c7_hot_update_alpha
    { engine := DetectionEngine.init "yolo26m.pt" "cpu",
      rooms := [("lobby", RoomProcessor.init "lobby" "0" 100)],
      settings := defaultSettings }
    (SettingsUpdate.mk none none none (some (1/2)) none) (1/2) rfl
  exact ⟨h.1, h.2.2.1, h.2.2.2⟩

/-- C8 counterexample: after a room's only subscriber connects and
disconnects, the room key remains mapped to an empty set, and
`broadcast_room` on that empty subscriber set still serializes the message
(one `json.dumps` happens before the member loop) — refuting that no
message is serialized. -/
theorem c8_counterexample :
    List.lookup "lounge"
        (ConnectionManager.disconnect_room
          (ConnectionManager.connect_room ConnectionManager.init 0 "lounge")
          0 "lounge").room_connections = some [] ∧
    (ConnectionManager.broadcast_room
        (ConnectionManager.disconnect_room
          (ConnectionManager.connect_room ConnectionManager.init 0 "lounge")
          0 "lounge")
        "lounge" 42 (fun _ => false)).2 = [WsEvent.serialized 42] := by
  refine ⟨by decide, by decide⟩

/-- C8 amended: `broadcast_dashboard` on an empty dashboard set is a full
no-op (state unchanged, nothing serialized, nothing sent, and — being a
total function — no exception); `broadcast_room` is a full no-op only when
the room id has no entry at all; when the id maps to an empty set the
payload is serialized once but no delivery is attempted. -/
theorem c8_broadcast_empty (m : ConnectionManager) (data : Payload)
    (fails : WS → Bool) (room_id : String) :
    (m.dashboard_connections = [] →
        ConnectionManager.broadcast_dashboard m data fails = (m, [])) ∧
    (List.lookup room_id m.room_connections = none →
        ConnectionManager.broadcast_room m room_id data fails = (m, [])) ∧
    (List.lookup room_id m.room_connections = some [] →
        (ConnectionManager.broadcast_room m room_id data fails).2 =
          [WsEvent.serialized data] ∧
        ∀ w : WS, WsEvent.sentTo w ∉
          (ConnectionManager.broadcast_room m room_id data fails).2) := by
  refine ⟨?_, ?_, ?_⟩
  · intro h
    unfold ConnectionManager.broadcast_dashboard
    rw [if_pos h]
  · intro h
    simp [ConnectionManager.broadcast_room, h]
  · intro h
    simp [ConnectionManager.broadcast_room, h]

/-- Witness for the amended C8: the fresh manager for the two empty-state
no-ops and the connect-then-disconnect state for the empty-set room
broadcast. -/
theorem c8_broadcast_empty_witness :
    ConnectionManager.broadcast_dashboard ConnectionManager.init 42
        (fun _ => false) = (ConnectionManager.init, []) ∧
    ConnectionManager.broadcast_room ConnectionManager.init "lounge" 42
        (fun _ => false) = (ConnectionManager.init, []) ∧
    (ConnectionManager.broadcast_room
        (ConnectionManager.disconnect_room
          (ConnectionManager.connect_room ConnectionManager.init 0 "lounge")
          0 "lounge")
        "lounge" 42 (fun _ => false)).2 = [WsEvent.serialized 42] :=
  ⟨(c8_broadcast_empty ConnectionManager.init 42 (fun _ => false) "lounge").1 rfl,
   (c8_broadcast_empty ConnectionManager.init 42 (fun _ => false) "lounge").2.1
     (by decide),
   ((c8_broadcast_empty
       (ConnectionManager.disconnect_room
         (ConnectionManager.connect_room ConnectionManager.init 0 "lounge")
         0 "lounge")
       42 (fun _ => false) "lounge").2.2 (by decide)).1⟩

/-- C9: a successful YOLO-path `detect` call returns a count equal to the
length of the returned detection list, and every entry carries the
four-element bbox `[x1, y1, x2, y2]`, the box's confidence, and the
truncated midpoint center. -/
theorem c9_detect_yolo_shape (e : DetectionEngine) (frame : Frame) (conf : ℚ)
    (imgsz : ℤ) (env : DetectEnv) (hl : e.loaded = true) (hp : e.isP2pnet = false) :
    ∃ e1 annotated,
      DetectionEngine.detect e frame conf imgsz env =
        Except.ok (e1, env.yoloBoxes.length, annotated,
          env.yoloBoxes.map boxToDetection) ∧
      env.yoloBoxes.length = (env.yoloBoxes.map boxToDetection).length ∧
      (∀ d ∈ env.yoloBoxes.map boxToDetection, d.bbox.length = 4) ∧
      (∀ b ∈ env.yoloBoxes, boxToDetection b =
        { bbox := [b.x1, b.y1, b.x2, b.y2], confidence := b.conf,
          center := (pyInt ((b.x1 + b.x2) / 2), pyInt ((b.y1 + b.y2) / 2)) }) := by
  refine ⟨{ e with inferenceTimes :=
      if e.maxTimes < (e.inferenceTimes ++ [env.inferenceMs]).length then
        (e.inferenceTimes ++ [env.inferenceMs]).drop 1
      else e.inferenceTimes ++ [env.inferenceMs] },
    (frame, (env.yoloBoxes.map boxToDetection).map (fun d => d.center)),
    ?_, ?_, ?_, ?_⟩
  · simp only [DetectionEngine.detect, hl, hp]
    simp
  · rw [List.length_map]
  · intro d hd
    rw [List.mem_map] at hd
    obtain ⟨b, _, hb⟩ := hd
    rw [← hb]
    rfl
  · intro b _
    rfl

/-- Witness for C9 on a loaded YOLO engine and a single result box. -/
theorem c9_detect_yolo_shape_witness :
    ∃ e1 annotated,
      DetectionEngine.detect (DetectionEngine.mk "yolo11n.pt" "cpu" true [] 100 false)
          5 (35/100) 640
          (DetectEnv.mk [Box.mk 0 0 10 10 (9/10)] 12 0 (0, []) [] []) =
        Except.ok (e1,
          (DetectEnv.mk [Box.mk 0 0 10 10 (9/10)] 12 0 (0, []) [] []).yoloBoxes.length,
          annotated,
          (DetectEnv.mk [Box.mk 0 0 10 10 (9/10)] 12 0 (0, []) [] []).yoloBoxes.map
            boxToDetection) ∧
      (DetectEnv.mk [Box.mk 0 0 10 10 (9/10)] 12 0 (0, []) [] []).yoloBoxes.length =
        ((DetectEnv.mk [Box.mk 0 0 10 10 (9/10)] 12 0 (0, []) [] []).yoloBoxes.map
          boxToDetection).length ∧
      (∀ d ∈ (DetectEnv.mk [Box.mk 0 0 10 10 (9/10)] 12 0 (0, []) [] []).yoloBoxes.map
          boxToDetection, d.bbox.length = 4) ∧
      (∀ b ∈ (DetectEnv.mk [Box.mk 0 0 10 10 (9/10)] 12 0 (0, []) [] []).yoloBoxes,
        boxToDetection b =
          { bbox := [b.x1, b.y1, b.x2, b.y2], confidence := b.conf,
            center := (pyInt ((b.x1 + b.x2) / 2), pyInt ((b.y1 + b.y2) / 2)) }) :=
  c9_detect_yolo_shape (DetectionEngine.mk "yolo11n.pt" "cpu" true [] 100 false)
    5 (35/100) 640 (DetectEnv.mk [Box.mk 0 0 10 10 (9/10)] 12 0 (0, []) [] []) rfl rfl

end CrowdCounter
